import Mathlib

set_option linter.unusedVariables false

/-!
Verification of the emcache client façade (`emcache/client.py`) against its
natural-language specification.

The embedding is shallow: byte strings are `List Nat`, Python exceptions are an
explicit `Err` sum carried in `Except`, and the connection layer (which is a
collaborator performing real I/O) is abstracted by passing the server reply as
an explicit argument, so every façade function is a pure function of its
arguments and the reply it would observe.  Functions keep the names and the
exact check ordering of the source.
-/

namespace Emcache

/-- A byte string (Python `bytes`): a list of byte values. -/
abbrev Bytes := List Nat

/-- ASCII bytes of a string literal, used for the wire-protocol tokens. -/
def asciiBytes (s : String) : Bytes := s.data.map Char.toNat

/-- Reply token `STORED` (from `emcache/protocol.py`). -/
def STORED : Bytes := asciiBytes "STORED"

/-- Reply token `NOT_STORED`. -/
def NOT_STORED : Bytes := asciiBytes "NOT_STORED"

/-- Reply token `EXISTS`. -/
def EXISTS : Bytes := asciiBytes "EXISTS"

/-- Reply token `NOT_FOUND`. -/
def NOT_FOUND : Bytes := asciiBytes "NOT_FOUND"

/-- Reply token `DELETED`. -/
def DELETED : Bytes := asciiBytes "DELETED"

/-- Reply token `TOUCHED`. -/
def TOUCHED : Bytes := asciiBytes "TOUCHED"

/-- Reply token `OK`. -/
def OK : Bytes := asciiBytes "OK"

/-- Reply token `END`. -/
def END : Bytes := asciiBytes "END"

/-- Reply token `VERSION`. -/
def VERSION : Bytes := asciiBytes "VERSION"

/-- The exceptions raised by the client façade (`RuntimeError` for the closed
client, `ValueError` with its message for argument validation, and the classes
of `emcache/client_errors.py`; the f-string payloads of the command errors are
elided). -/
inductive Err where
  | clientClosed
  | valueError (msg : String)
  | commandError
  | notFoundCommandError
  | notStoredStorageCommandError
  | storageCommandError
deriving DecidableEq, Repr

/-- `MAX_ALLOWED_FLAG_VALUE = 2**16` (client.py line 38). -/
def MAX_ALLOWED_FLAG_VALUE : Int := 2 ^ 16

/-- `MAX_ALLOWED_CAS_VALUE = 2**64` (client.py line 39). -/
def MAX_ALLOWED_CAS_VALUE : Int := 2 ^ 64

/-- The message of both bound-check `ValueError`s; the source interpolates
`MAX_ALLOWED_FLAG_VALUE` in the cas branch as well. -/
def flagsMessage : String := "flags can not be higher than 65536"

/-- The message of the key-validation `ValueError` (spelling as in source). -/
def keyMessage : String := "Key has invalid charcters"

/-- The message of the negative-delta `ValueError`. -/
def deltaMessage : String := "Incr or Decr by a positive value number expected"

/-- Modelled from the spec: `cyemcache.is_key_valid` is a Cython module that is
not under `src/`.  Spec §8: "a key containing any byte in {space, tab, CR, LF}
or any byte < 0x21 or of length 0 or > 250 is rejected before any I/O". -/
def is_key_valid (key : Bytes) : Bool :=
  decide (key.length ≠ 0) && decide (key.length ≤ 250) &&
    key.all fun b =>
      !(b == 32 || b == 9 || b == 13 || b == 10) && !(b < 0x21)

/-- `cas is not None and cas > MAX_ALLOWED_CAS_VALUE` (client.py line 158). -/
def casTooHigh : Option Int → Bool
  | none => false
  | some c => decide (MAX_ALLOWED_CAS_VALUE < c)

/-- `_Client._storage_command` (client.py lines 149-170) up to and including
the connection round trip: the closed check, the cas bound, the flags bound and
the key validation, in source order; on success the node is picked, the command
is sent and the server reply is returned to the per-command wrapper.  The reply
the connection would deliver is the `reply` argument. -/
def client_storage_command (closed : Bool) (key : Bytes) (flags : Int)
    (cas : Option Int) (reply : Bytes) : Except Err Bytes :=
  if closed then Except.error Err.clientClosed
  else if casTooHigh cas then Except.error (Err.valueError flagsMessage)
  else if MAX_ALLOWED_FLAG_VALUE < flags then Except.error (Err.valueError flagsMessage)
  else if is_key_valid key = false then Except.error (Err.valueError keyMessage)
  else Except.ok reply

/-- `_Client.set` (client.py lines 429-457). `value` and `exptime` only take
part in the serialised command, which the abstracted connection carries. -/
def client_set (closed : Bool) (key value : Bytes) (flags exptime : Int)
    (noreply : Bool) (reply : Bytes) : Except Err Unit :=
  match client_storage_command closed key flags none reply with
  | Except.error e => Except.error e
  | Except.ok result =>
    if noreply = false ∧ result ≠ STORED then Except.error Err.storageCommandError
    else Except.ok ()

/-- `_Client.add` (client.py lines 459-476). -/
def client_add (closed : Bool) (key value : Bytes) (flags exptime : Int)
    (noreply : Bool) (reply : Bytes) : Except Err Unit :=
  match client_storage_command closed key flags none reply with
  | Except.error e => Except.error e
  | Except.ok result =>
    if noreply = false ∧ result = NOT_STORED then
      Except.error Err.notStoredStorageCommandError
    else if noreply = false ∧ result ≠ STORED then Except.error Err.storageCommandError
    else Except.ok ()

/-- `_Client.replace` (client.py lines 478-497). -/
def client_replace (closed : Bool) (key value : Bytes) (flags exptime : Int)
    (noreply : Bool) (reply : Bytes) : Except Err Unit :=
  match client_storage_command closed key flags none reply with
  | Except.error e => Except.error e
  | Except.ok result =>
    if noreply = false ∧ result = NOT_STORED then
      Except.error Err.notStoredStorageCommandError
    else if noreply = false ∧ result ≠ STORED then Except.error Err.storageCommandError
    else Except.ok ()

/-- `_Client.append` (client.py lines 499-521); flags and exptime are fixed
to 0 by the source. -/
def client_append (closed : Bool) (key value : Bytes) (noreply : Bool)
    (reply : Bytes) : Except Err Unit :=
  match client_storage_command closed key 0 none reply with
  | Except.error e => Except.error e
  | Except.ok result =>
    if noreply = false ∧ result = NOT_STORED then
      Except.error Err.notStoredStorageCommandError
    else if noreply = false ∧ result ≠ STORED then Except.error Err.storageCommandError
    else Except.ok ()

/-- `_Client.prepend` (client.py lines 523-546); flags and exptime are fixed
to 0 by the source. -/
def client_prepend (closed : Bool) (key value : Bytes) (noreply : Bool)
    (reply : Bytes) : Except Err Unit :=
  match client_storage_command closed key 0 none reply with
  | Except.error e => Except.error e
  | Except.ok result =>
    if noreply = false ∧ result = NOT_STORED then
      Except.error Err.notStoredStorageCommandError
    else if noreply = false ∧ result ≠ STORED then Except.error Err.storageCommandError
    else Except.ok ()

/-- `_Client.cas` (client.py lines 548-567): `EXISTS` maps to the not-stored
error, any other non-`STORED` reply to the generic storage error. -/
def client_cas (closed : Bool) (key value : Bytes) (casValue : Int)
    (flags exptime : Int) (noreply : Bool) (reply : Bytes) : Except Err Unit :=
  match client_storage_command closed key flags (some casValue) reply with
  | Except.error e => Except.error e
  | Except.ok result =>
    if noreply = false ∧ result = EXISTS then
      Except.error Err.notStoredStorageCommandError
    else if noreply = false ∧ result ≠ STORED then Except.error Err.storageCommandError
    else Except.ok ()

/-- `int(result)` over a reply line (Python `int` on `bytes`): defined exactly
on non-empty all-digit byte strings such as the counter replies; any other
reply makes it raise `ValueError`. -/
def int_of_bytes (bs : Bytes) : Option Nat :=
  if bs ≠ [] ∧ bs.all (fun b => 48 ≤ b ∧ b ≤ 57) then
    some (bs.foldl (fun acc b => acc * 10 + (b - 48)) 0)
  else none

/-- `_Client._incr_decr_command` (client.py lines 172-186): the closed check,
the negative-delta check and the key validation in source order, then the
connection round trip whose reply is the `reply` argument. -/
def client_incr_decr_command (closed : Bool) (key : Bytes) (value : Int)
    (noreply : Bool) (reply : Bytes) : Except Err Bytes :=
  if closed then Except.error Err.clientClosed
  else if value < 0 then Except.error (Err.valueError deltaMessage)
  else if is_key_valid key = false then Except.error (Err.valueError keyMessage)
  else Except.ok reply

/-- `_Client.increment` (client.py lines 569-587): under `noreply` the reply is
not read and `None` is returned; `NOT_FOUND` raises the not-found error; any
other reply goes through `int(result)`. -/
def client_increment (closed : Bool) (key : Bytes) (value : Int)
    (noreply : Bool) (reply : Bytes) : Except Err (Option Nat) :=
  match client_incr_decr_command closed key value noreply reply with
  | Except.error e => Except.error e
  | Except.ok result =>
    if noreply then Except.ok none
    else if result = NOT_FOUND then Except.error Err.notFoundCommandError
    else
      match int_of_bytes result with
      | some n => Except.ok (some n)
      | none => Except.error (Err.valueError "invalid literal for int")

/-- `_Client.decrement` (client.py lines 589-607): same handling as
`increment` with the `decr` wire command. -/
def client_decrement (closed : Bool) (key : Bytes) (value : Int)
    (noreply : Bool) (reply : Bytes) : Except Err (Option Nat) :=
  match client_incr_decr_command closed key value noreply reply with
  | Except.error e => Except.error e
  | Except.ok result =>
    if noreply then Except.ok none
    else if result = NOT_FOUND then Except.error Err.notFoundCommandError
    else
      match int_of_bytes result with
      | some n => Except.ok (some n)
      | none => Except.error (Err.valueError "invalid literal for int")

/-- `emcache/base.py` `Item`: value plus optional flags and cas. -/
structure Item where
  value : Bytes
  flags : Option Nat
  cas : Option Nat
deriving DecidableEq, Repr

/-- The five parallel arrays a connection's `fetch_command` /
`get_and_touch_command` returns: `keys, values, flags, cas, client_error`
(spec §4.1); `client_error` is `some` exactly when the parser populated a
non-empty error. -/
structure FetchResult where
  keys : List Bytes
  values : List Bytes
  flags : List Nat
  cas : List Nat
  client_error : Option Bytes
deriving DecidableEq, Repr

/-- `_Client.get` (client.py lines 311-340) on the direct (non-autobatching)
path: `_fetch_command` validation followed by the decoding of the reply
arrays.  Out-of-range indexing (impossible for well-formed replies) defaults. -/
def client_get (closed : Bool) (key : Bytes) (return_flags : Bool)
    (r : FetchResult) : Except Err (Option Item) :=
  if closed then Except.error Err.clientClosed
  else if is_key_valid key = false then Except.error (Err.valueError keyMessage)
  else
    match r.client_error with
    | some _ => Except.error Err.commandError
    | none =>
      if key ∈ r.keys then
        if return_flags = false then
          Except.ok (some ⟨r.values.getD 0 [], none, none⟩)
        else
          Except.ok (some ⟨r.values.getD 0 [], some (r.flags.getD 0 0), none⟩)
      else Except.ok none

/-- `_Client.gets` (client.py lines 342-372) on the direct path: as `get` but
`cas[0]` is always populated in the returned item. -/
def client_gets (closed : Bool) (key : Bytes) (return_flags : Bool)
    (r : FetchResult) : Except Err (Option Item) :=
  if closed then Except.error Err.clientClosed
  else if is_key_valid key = false then Except.error (Err.valueError keyMessage)
  else
    match r.client_error with
    | some _ => Except.error Err.commandError
    | none =>
      if key ∈ r.keys then
        if return_flags = false then
          Except.ok (some ⟨r.values.getD 0 [], none, some (r.cas.getD 0 0)⟩)
        else
          Except.ok (some ⟨r.values.getD 0 [], some (r.flags.getD 0 0), some (r.cas.getD 0 0)⟩)
      else Except.ok none

/-- `_Client.gat` (client.py lines 722-739): `_get_and_touch_command`
validation followed by the same decoding as `get`. -/
def client_gat (closed : Bool) (exptime : Int) (key : Bytes)
    (return_flags : Bool) (r : FetchResult) : Except Err (Option Item) :=
  if closed then Except.error Err.clientClosed
  else if is_key_valid key = false then Except.error (Err.valueError keyMessage)
  else
    match r.client_error with
    | some _ => Except.error Err.commandError
    | none =>
      if key ∈ r.keys then
        if return_flags = false then
          Except.ok (some ⟨r.values.getD 0 [], none, none⟩)
        else
          Except.ok (some ⟨r.values.getD 0 [], some (r.flags.getD 0 0), none⟩)
      else Except.ok none

/-- `_Client.gats` (client.py lines 741-758): as `gat` but `cas[0]` is always
populated. -/
def client_gats (closed : Bool) (exptime : Int) (key : Bytes)
    (return_flags : Bool) (r : FetchResult) : Except Err (Option Item) :=
  if closed then Except.error Err.clientClosed
  else if is_key_valid key = false then Except.error (Err.valueError keyMessage)
  else
    match r.client_error with
    | some _ => Except.error Err.commandError
    | none =>
      if key ∈ r.keys then
        if return_flags = false then
          Except.ok (some ⟨r.values.getD 0 [], none, some (r.cas.getD 0 0)⟩)
        else
          Except.ok (some ⟨r.values.getD 0 [], some (r.flags.getD 0 0), some (r.cas.getD 0 0)⟩)
      else Except.ok none

/-- The observable state of one per-node sub-request task at the moment the
gather rendezvous completes: finished with a result, finished with an
exception, or still in flight. -/
inductive TaskState (α : Type) where
  | done (r : α)
  | failed (e : Err)
  | running
deriving DecidableEq, Repr

/-- The first failed task, in task order (the deterministic abstraction of the
exception `asyncio.gather` propagates). -/
def first_failure {α : Type} : List (TaskState α) → Option Err
  | [] => none
  | TaskState.failed e :: _ => some e
  | _ :: ts => first_failure ts

/-- The results of the finished tasks, in task order. -/
def task_results {α : Type} : List (TaskState α) → List α
  | [] => []
  | TaskState.done r :: ts => r :: task_results ts
  | _ :: ts => task_results ts

/-- Outcome of the gather block of `_fetch_many_command` /
`_get_and_touch_many_command` (client.py lines 223-234 and 271-282): the value
returned or the exception re-raised, plus which task had `cancel()` requested
on it. -/
structure GatherOutcome (α : Type) where
  result : Except Err (List α)
  cancelRequested : List Bool

/-- `await asyncio.gather(*tasks)` with the source's `except` block: on any
failure, every task that is not done gets `cancel()` requested and the first
error is re-raised; otherwise all tasks are done and their results are
returned in task order. -/
def gather_outcome {α : Type} (tasks : List (TaskState α)) : GatherOutcome α :=
  match first_failure tasks with
  | some e =>
    ⟨Except.error e,
     tasks.map fun t => match t with | TaskState.running => true | _ => false⟩
  | none => ⟨Except.ok (task_results tasks), tasks.map fun _ => false⟩

/-- The pre-I/O phase of `_fetch_many_command` (client.py lines 201-213):
closed check, the empty-keys early return, then per-key validation; `io`
means the call goes on to `pick_nodes` and the per-node tasks. -/
inductive FetchManyPhase where
  | err (e : Err)
  | emptyResult
  | io (keys : List Bytes)
deriving DecidableEq, Repr

/-- Phase selection of `_fetch_many_command` and
`_get_and_touch_many_command`, whose prologues are identical. -/
def fetch_many_phase (closed : Bool) (keys : List Bytes) : FetchManyPhase :=
  if closed then FetchManyPhase.err Err.clientClosed
  else if keys.isEmpty then FetchManyPhase.emptyResult
  else if keys.all is_key_valid = false then
    FetchManyPhase.err (Err.valueError keyMessage)
  else FetchManyPhase.io keys

/-- `_Client._fetch_many_command` (client.py lines 201-234): the per-node task
states at the gather rendezvous stand in for the I/O.  The empty-keys early
return produces the empty result without touching the tasks. -/
def fetch_many_command (closed : Bool) (keys : List Bytes)
    (tasks : List (TaskState FetchResult)) : Except Err (List FetchResult) :=
  match fetch_many_phase closed keys with
  | FetchManyPhase.err e => Except.error e
  | FetchManyPhase.emptyResult => Except.ok []
  | FetchManyPhase.io _ => (gather_outcome tasks).result

/-- `_Client._get_and_touch_many_command` (client.py lines 249-282): same
structure as `fetch_many_command` with the extra `exptime` argument carried to
the wire command. -/
def get_and_touch_many_command (closed : Bool) (exptime : Int)
    (keys : List Bytes) (tasks : List (TaskState FetchResult)) :
    Except Err (List FetchResult) :=
  match fetch_many_phase closed keys with
  | FetchManyPhase.err e => Except.error e
  | FetchManyPhase.emptyResult => Except.ok []
  | FetchManyPhase.io _ => (gather_outcome tasks).result

/-- Python dict assignment `results[k] = v` over an association list. -/
def dict_insert (m : List (Bytes × Item)) (k : Bytes) (v : Item) :
    List (Bytes × Item) :=
  if m.any fun p => p.1 = k then m.map fun p => if p.1 = k then (k, v) else p
  else m ++ [(k, v)]

/-- One node's contribution to a many-retrieval result map: the positional
loop `for idx in range(len(keys))` of `get_many`/`gat_many` (no cas). -/
def node_items_nocas (return_flags : Bool) (r : FetchResult) :
    List (Bytes × Item) :=
  (List.range r.keys.length).map fun idx =>
    (r.keys.getD idx [],
     if return_flags then
       Item.mk (r.values.getD idx []) (some (r.flags.getD idx 0)) none
     else Item.mk (r.values.getD idx []) none none)

/-- One node's contribution for `gets_many`/`gats_many` (cas populated). -/
def node_items_cas (return_flags : Bool) (r : FetchResult) :
    List (Bytes × Item) :=
  (List.range r.keys.length).map fun idx =>
    (r.keys.getD idx [],
     if return_flags then
       Item.mk (r.values.getD idx []) (some (r.flags.getD idx 0)) (some (r.cas.getD idx 0))
     else Item.mk (r.values.getD idx []) none (some (r.cas.getD idx 0)))

/-- The result-map aggregation loops of the four many-retrieval commands
(client.py lines 389-403 etc.): a node result carrying a client error raises
the command error and discards everything; otherwise each node's items are
written into the dict in order. -/
def aggregate_many (items : FetchResult → List (Bytes × Item))
    (nodes_results : List FetchResult) : Except Err (List (Bytes × Item)) :=
  if nodes_results.any fun r => r.client_error.isSome then
    Except.error Err.commandError
  else
    Except.ok (nodes_results.foldl
      (fun acc r => (items r).foldl (fun a p => dict_insert a p.1 p.2) acc) [])

/-- `_Client.get_many` (client.py lines 374-403). -/
def client_get_many (closed : Bool) (keys : List Bytes) (return_flags : Bool)
    (tasks : List (TaskState FetchResult)) : Except Err (List (Bytes × Item)) :=
  match fetch_many_command closed keys tasks with
  | Except.error e => Except.error e
  | Except.ok nodes_results => aggregate_many (node_items_nocas return_flags) nodes_results

/-- `_Client.gets_many` (client.py lines 405-427). -/
def client_gets_many (closed : Bool) (keys : List Bytes) (return_flags : Bool)
    (tasks : List (TaskState FetchResult)) : Except Err (List (Bytes × Item)) :=
  match fetch_many_command closed keys tasks with
  | Except.error e => Except.error e
  | Except.ok nodes_results => aggregate_many (node_items_cas return_flags) nodes_results

/-- `_Client.gat_many` (client.py lines 760-782). -/
def client_gat_many (closed : Bool) (exptime : Int) (keys : List Bytes)
    (return_flags : Bool) (tasks : List (TaskState FetchResult)) :
    Except Err (List (Bytes × Item)) :=
  match get_and_touch_many_command closed exptime keys tasks with
  | Except.error e => Except.error e
  | Except.ok nodes_results => aggregate_many (node_items_nocas return_flags) nodes_results

/-- `_Client.gats_many` (client.py lines 784-806). -/
def client_gats_many (closed : Bool) (exptime : Int) (keys : List Bytes)
    (return_flags : Bool) (tasks : List (TaskState FetchResult)) :
    Except Err (List (Bytes × Item)) :=
  match get_and_touch_many_command closed exptime keys tasks with
  | Except.error e => Except.error e
  | Except.ok nodes_results => aggregate_many (node_items_cas return_flags) nodes_results

/-- `_Client.touch` (client.py lines 609-636). -/
def client_touch (closed : Bool) (key : Bytes) (exptime : Int) (noreply : Bool)
    (reply : Bytes) : Except Err Unit :=
  if closed then Except.error Err.clientClosed
  else if is_key_valid key = false then Except.error (Err.valueError keyMessage)
  else if noreply then Except.ok ()
  else if reply = NOT_FOUND then Except.error Err.notFoundCommandError
  else if reply ≠ TOUCHED then Except.error Err.commandError
  else Except.ok ()

/-- `_Client.delete` (client.py lines 638-665). -/
def client_delete (closed : Bool) (key : Bytes) (noreply : Bool)
    (reply : Bytes) : Except Err Unit :=
  if closed then Except.error Err.clientClosed
  else if is_key_valid key = false then Except.error (Err.valueError keyMessage)
  else if noreply then Except.ok ()
  else if reply = NOT_FOUND then Except.error Err.notFoundCommandError
  else if reply ≠ DELETED then Except.error Err.commandError
  else Except.ok ()

/-- `_Client.flush_all` (client.py lines 667-695); the per-node address lookup
is part of the abstracted cluster. -/
def client_flush_all (closed : Bool) (delay : Int) (noreply : Bool)
    (reply : Bytes) : Except Err Unit :=
  if closed then Except.error Err.clientClosed
  else if noreply then Except.ok ()
  else if reply ≠ OK then Except.error Err.commandError
  else Except.ok ()

/-- `bytes.removeprefix(b"VERSION ")` as used by `_Client.version`. -/
def strip_version_tag (reply : Bytes) : Bytes :=
  if List.isPrefixOf (asciiBytes "VERSION ") reply then reply.drop 8 else reply

/-- `_Client.version` (client.py lines 697-720); the final `.decode()` is the
identity at byte level. -/
def client_version (closed : Bool) (reply : Bytes) : Except Err Bytes :=
  if closed then Except.error Err.clientClosed
  else if reply = [] ∨ List.isPrefixOf VERSION reply = false then
    Except.error Err.commandError
  else Except.ok (strip_version_tag reply)

/-- The CRLF-terminated lines of a byte buffer; trailing bytes without a CRLF
form no line (the `STAT` regex requires the terminator). -/
def split_lines (acc : Bytes) : Bytes → List Bytes
  | 13 :: 10 :: rest => acc :: split_lines [] rest
  | b :: rest => split_lines (acc ++ [b]) rest
  | [] => []

/-- The greedy split of `(.+) (.+)`: the last space leaving at least one byte
on each side. -/
def last_space_split (bs : Bytes) : Option (Bytes × Bytes) :=
  match ((List.range bs.length).filter fun i =>
      bs.getD i 0 = 32 ∧ 1 ≤ i ∧ i + 1 < bs.length).getLast? with
  | some i => some (bs.take i, bs.drop (i + 1))
  | none => none

/-- One `STAT <name> <value>` line of a stats block, per the source regex
`STAT (.+) (.+)\r\n`. -/
def parse_stat_line (line : Bytes) : Option (Bytes × Bytes) :=
  if List.isPrefixOf (asciiBytes "STAT ") line then
    last_space_split (line.drop 5)
  else none

/-- The `dict(re.finditer(r"STAT (.+) (.+)\r\n", ...))` post-processing of a
stats block (later duplicates overwrite earlier ones). -/
def parse_stats_block (reply : Bytes) : List (Bytes × Bytes) :=
  ((split_lines [] reply).filterMap parse_stat_line).foldl
    (fun acc p =>
      if acc.any fun q => q.1 = p.1 then
        acc.map fun q => if q.1 = p.1 then p else q
      else acc ++ [p]) []

/-- `_Client.stats` (client.py lines 830-847). -/
def client_stats (closed : Bool) (reply : Bytes) :
    Except Err (List (Bytes × Bytes)) :=
  if closed then Except.error Err.clientClosed
  else if reply = [] ∨ List.isSuffixOf END reply = false then
    Except.error Err.commandError
  else Except.ok (parse_stats_block reply)

/-- `_Client.cache_memlimit` (client.py lines 808-828). -/
def client_cache_memlimit (closed : Bool) (value : Int) (noreply : Bool)
    (reply : Bytes) : Except Err Unit :=
  if closed then Except.error Err.clientClosed
  else if noreply then Except.ok ()
  else if reply ≠ OK then Except.error Err.commandError
  else Except.ok ()

/-- `_Client.verbosity` (client.py lines 849-878). -/
def client_verbosity (closed : Bool) (level : Int) (noreply : Bool)
    (reply : Bytes) : Except Err Unit :=
  if closed then Except.error Err.clientClosed
  else if noreply then Except.ok ()
  else if reply ≠ OK then Except.error Err.commandError
  else Except.ok ()

/-! ### The pipeline builder (`_Pipeline`) -/

/-- ASCII decimal rendering of an integer, as Python `b"%a" % n` produces. -/
def ascii_int (n : Int) : Bytes := asciiBytes (toString n)

/-- CR LF. -/
def CRLF : Bytes := [13, 10]

/-- `b" ".join(keys)`. -/
def join_spaces : List Bytes → Bytes
  | [] => []
  | [k] => k
  | k :: ks => k ++ [32] ++ join_spaces ks

/-- `_Pipeline._retrieval_command` (client.py lines 898-903): validate every
key, then serialise `<command> <key...>\r\n`. -/
def pipeline_retrieval_command (command : Bytes) (keys : List Bytes) :
    Except Err Bytes :=
  if keys.all is_key_valid = false then Except.error (Err.valueError keyMessage)
  else Except.ok (command ++ [32] ++ join_spaces keys ++ CRLF)

/-- `_Pipeline._storage_command` (client.py lines 905-925): the same cas,
flags and key checks as the client façade, then the two-CRLF serialisation
with the optional cas token and `noreply` suffix. -/
def pipeline_storage_command (command key value : Bytes) (flags exptime : Int)
    (noreply : Bool) (cas : Option Int) : Except Err Bytes :=
  if casTooHigh cas then Except.error (Err.valueError flagsMessage)
  else if MAX_ALLOWED_FLAG_VALUE < flags then Except.error (Err.valueError flagsMessage)
  else if is_key_valid key = false then Except.error (Err.valueError keyMessage)
  else
    let extra : Bytes :=
      match cas with
      | some c =>
        if noreply = false then [32] ++ ascii_int c
        else [32] ++ ascii_int c ++ asciiBytes " noreply"
      | none => if noreply = false then [] else asciiBytes " noreply"
    Except.ok (command ++ [32] ++ key ++ [32] ++ ascii_int flags ++ [32]
      ++ ascii_int exptime ++ [32] ++ ascii_int (Int.ofNat value.length)
      ++ extra ++ CRLF ++ value ++ CRLF)

/-- `_Pipeline._incr_decr_command` (client.py lines 927-935). -/
def pipeline_incr_decr_command (command key : Bytes) (value : Int)
    (noreply : Bool) : Except Err Bytes :=
  if value < 0 then Except.error (Err.valueError deltaMessage)
  else if is_key_valid key = false then Except.error (Err.valueError keyMessage)
  else
    Except.ok (command ++ [32] ++ key ++ [32] ++ ascii_int value
      ++ (if noreply then asciiBytes " noreply" else []) ++ CRLF)

/-- `_Pipeline._get_and_touch_command` (client.py lines 937-942). -/
def pipeline_get_and_touch_command (command : Bytes) (exptime : Int)
    (keys : List Bytes) : Except Err Bytes :=
  if keys.all is_key_valid = false then Except.error (Err.valueError keyMessage)
  else Except.ok (command ++ [32] ++ ascii_int exptime ++ [32] ++ join_spaces keys ++ CRLF)

/-- `self.stack.append(cmd); return self`: the stack after a builder method
whose serialiser may raise. -/
def stack_append (stack : List Bytes) : Except Err Bytes → Except Err (List Bytes)
  | Except.error e => Except.error e
  | Except.ok c => Except.ok (stack ++ [c])

/-- `_Pipeline.get` (client.py lines 997-1000). -/
def pipeline_get (stack : List Bytes) (key : Bytes) : Except Err (List Bytes) :=
  stack_append stack (pipeline_retrieval_command (asciiBytes "get") [key])

/-- `_Pipeline.gets`. -/
def pipeline_gets (stack : List Bytes) (key : Bytes) : Except Err (List Bytes) :=
  stack_append stack (pipeline_retrieval_command (asciiBytes "gets") [key])

/-- `_Pipeline.get_many`. -/
def pipeline_get_many (stack : List Bytes) (keys : List Bytes) :
    Except Err (List Bytes) :=
  stack_append stack (pipeline_retrieval_command (asciiBytes "get") keys)

/-- `_Pipeline.gets_many`. -/
def pipeline_gets_many (stack : List Bytes) (keys : List Bytes) :
    Except Err (List Bytes) :=
  stack_append stack (pipeline_retrieval_command (asciiBytes "gets") keys)

/-- `_Pipeline.set`. -/
def pipeline_set (stack : List Bytes) (key value : Bytes) (flags exptime : Int)
    (noreply : Bool) : Except Err (List Bytes) :=
  stack_append stack
    (pipeline_storage_command (asciiBytes "set") key value flags exptime noreply none)

/-- `_Pipeline.add`. -/
def pipeline_add (stack : List Bytes) (key value : Bytes) (flags exptime : Int)
    (noreply : Bool) : Except Err (List Bytes) :=
  stack_append stack
    (pipeline_storage_command (asciiBytes "add") key value flags exptime noreply none)

/-- `_Pipeline.replace`. -/
def pipeline_replace (stack : List Bytes) (key value : Bytes)
    (flags exptime : Int) (noreply : Bool) : Except Err (List Bytes) :=
  stack_append stack
    (pipeline_storage_command (asciiBytes "replace") key value flags exptime noreply none)

/-- `_Pipeline.append` (flags and exptime fixed to 0 by the source). -/
def pipeline_append (stack : List Bytes) (key value : Bytes) (noreply : Bool) :
    Except Err (List Bytes) :=
  stack_append stack
    (pipeline_storage_command (asciiBytes "append") key value 0 0 noreply none)

/-- `_Pipeline.prepend` (flags and exptime fixed to 0 by the source). -/
def pipeline_prepend (stack : List Bytes) (key value : Bytes) (noreply : Bool) :
    Except Err (List Bytes) :=
  stack_append stack
    (pipeline_storage_command (asciiBytes "prepend") key value 0 0 noreply none)

/-- `_Pipeline.cas`. -/
def pipeline_cas (stack : List Bytes) (key value : Bytes) (casValue : Int)
    (flags exptime : Int) (noreply : Bool) : Except Err (List Bytes) :=
  stack_append stack
    (pipeline_storage_command (asciiBytes "cas") key value flags exptime noreply (some casValue))

/-- `_Pipeline.increment`. -/
def pipeline_increment (stack : List Bytes) (key : Bytes) (value : Int)
    (noreply : Bool) : Except Err (List Bytes) :=
  stack_append stack (pipeline_incr_decr_command (asciiBytes "incr") key value noreply)

/-- `_Pipeline.decrement`. -/
def pipeline_decrement (stack : List Bytes) (key : Bytes) (value : Int)
    (noreply : Bool) : Except Err (List Bytes) :=
  stack_append stack (pipeline_incr_decr_command (asciiBytes "decr") key value noreply)

/-- `_Pipeline.touch` (client.py lines 1061-1064); serialised inline by the
source, with no key validation. -/
def pipeline_touch (stack : List Bytes) (key : Bytes) (exptime : Int)
    (noreply : Bool) : Except Err (List Bytes) :=
  stack_append stack (Except.ok (asciiBytes "touch " ++ key ++ [32] ++ ascii_int exptime
    ++ (if noreply then asciiBytes " noreply" else []) ++ CRLF))

/-- `_Pipeline.delete` (client.py lines 1066-1069); serialised inline. -/
def pipeline_delete (stack : List Bytes) (key : Bytes) (noreply : Bool) :
    Except Err (List Bytes) :=
  stack_append stack (Except.ok (asciiBytes "delete " ++ key
    ++ (if noreply then asciiBytes " noreply" else []) ++ CRLF))

/-- `_Pipeline.flush_all`. -/
def pipeline_flush_all (stack : List Bytes) (delay : Int) (noreply : Bool) :
    Except Err (List Bytes) :=
  stack_append stack (Except.ok (asciiBytes "flush_all " ++ ascii_int delay
    ++ (if noreply then asciiBytes " noreply" else []) ++ CRLF))

/-- `_Pipeline.version`. -/
def pipeline_version (stack : List Bytes) : Except Err (List Bytes) :=
  stack_append stack (Except.ok (asciiBytes "version" ++ CRLF))

/-- `_Pipeline.gat`. -/
def pipeline_gat (stack : List Bytes) (exptime : Int) (key : Bytes) :
    Except Err (List Bytes) :=
  stack_append stack (pipeline_get_and_touch_command (asciiBytes "gat") exptime [key])

/-- `_Pipeline.gats`. -/
def pipeline_gats (stack : List Bytes) (exptime : Int) (key : Bytes) :
    Except Err (List Bytes) :=
  stack_append stack (pipeline_get_and_touch_command (asciiBytes "gats") exptime [key])

/-- `_Pipeline.gat_many`. -/
def pipeline_gat_many (stack : List Bytes) (exptime : Int) (keys : List Bytes) :
    Except Err (List Bytes) :=
  stack_append stack (pipeline_get_and_touch_command (asciiBytes "gat") exptime keys)

/-- `_Pipeline.gats_many`. -/
def pipeline_gats_many (stack : List Bytes) (exptime : Int) (keys : List Bytes) :
    Except Err (List Bytes) :=
  stack_append stack (pipeline_get_and_touch_command (asciiBytes "gats") exptime keys)

/-- `_Pipeline.cache_memlimit`. -/
def pipeline_cache_memlimit (stack : List Bytes) (value : Int) (noreply : Bool) :
    Except Err (List Bytes) :=
  stack_append stack (Except.ok (asciiBytes "cache_memlimit " ++ ascii_int value
    ++ (if noreply then asciiBytes " noreply" else []) ++ CRLF))

/-- `_Pipeline.stats`. -/
def pipeline_stats (stack : List Bytes) (args : List Bytes) :
    Except Err (List Bytes) :=
  stack_append stack (Except.ok
    (if args.isEmpty then asciiBytes "stats" ++ CRLF
     else asciiBytes "stats " ++ join_spaces args ++ CRLF))

/-- `_Pipeline.verbosity`. -/
def pipeline_verbosity (stack : List Bytes) (level : Int) (noreply : Bool) :
    Except Err (List Bytes) :=
  stack_append stack (Except.ok (asciiBytes "verbosity " ++ ascii_int level
    ++ (if noreply then asciiBytes " noreply" else []) ++ CRLF))

/-- `_Pipeline.__aexit__` (client.py lines 895-896): the stack is reset. -/
def pipeline_aexit (stack : List Bytes) : List Bytes := []

/-- Modelled from the spec: one terminal response record of the consolidated
pipeline reply, as matched by `regex_memcached_responses`
(`emcache/constants.py`, not under `src/`).  Spec §4.1: the parser "must
iterate all terminal records in order and yield a typed variant per record".
Each constructor is one named group of the source regex; the `stats` payload
carries the `STAT` pairs its block parses to. -/
inductive PipelineRecord where
  | errorMessage (msg : String)
  | clientError (msg : String)
  | errorReply
  | stored
  | notStored
  | existsReply
  | notFound
  | endReply
  | value (data : String) (flags : Nat) (cas : Option Nat)
  | deleted
  | touched
  | version (s : String)
  | okReply
  | stats (pairs : List (String × String))
  | incrDecrValue (n : Nat)
deriving DecidableEq, Repr

/-- One entry of the list `_Pipeline.execute` returns: a status/version/error
string, a retrieval `Item` (whose value is a decoded string there), a stats
map, or a counter integer. -/
inductive PipelineResponse where
  | text (s : String)
  | item (data : String) (flags : Nat) (cas : Option Nat)
  | statsMap (pairs : List (String × String))
  | counter (n : Nat)
deriving DecidableEq, Repr

/-- `str.removeprefix("VERSION ")`. -/
def strip_version_text (s : String) : String :=
  if s.startsWith "VERSION " then s.drop 8 else s

/-- The `if/elif` chain of `_Pipeline.execute` (client.py lines 957-992):
every matched record appends exactly one response entry. -/
def decode_pipeline_record : PipelineRecord → PipelineResponse
  | PipelineRecord.errorMessage m => PipelineResponse.text m
  | PipelineRecord.clientError m => PipelineResponse.text m
  | PipelineRecord.errorReply => PipelineResponse.text "ERROR"
  | PipelineRecord.stored => PipelineResponse.text "STORED"
  | PipelineRecord.notStored => PipelineResponse.text "NOT_STORED"
  | PipelineRecord.existsReply => PipelineResponse.text "EXISTS"
  | PipelineRecord.notFound => PipelineResponse.text "NOT_FOUND"
  | PipelineRecord.endReply => PipelineResponse.text "END"
  | PipelineRecord.value d f c => PipelineResponse.item d f c
  | PipelineRecord.deleted => PipelineResponse.text "DELETED"
  | PipelineRecord.touched => PipelineResponse.text "TOUCHED"
  | PipelineRecord.version s => PipelineResponse.text (strip_version_text s)
  | PipelineRecord.okReply => PipelineResponse.text "OK"
  | PipelineRecord.stats ps => PipelineResponse.statsMap ps
  | PipelineRecord.incrDecrValue n => PipelineResponse.counter n

/-- `_Pipeline.execute` (client.py lines 944-995): the closed check, then the
single raw round trip whose parsed records stand in for the consolidated
reply; every record is decoded in order and the stack is reset. -/
def pipeline_execute (closed : Bool) (stack : List Bytes)
    (records : List PipelineRecord) :
    Except Err (List PipelineResponse × List Bytes) :=
  if closed then Except.error Err.clientClosed
  else Except.ok (records.map decode_pipeline_record, [])

end Emcache

namespace Emcache

/-- Scratch key used by concrete evaluations. -/
def keyFoo : Bytes := asciiBytes "foo"

theorem keyFoo_valid : is_key_valid keyFoo = true := by decide

/-- A cas value within the allowed bound does not trip the cas check. -/
theorem casTooHigh_of_le (c : Int) (h : c ≤ MAX_ALLOWED_CAS_VALUE) :
    casTooHigh (some c) = false := by
  simp [casTooHigh]
  exact h

/-- The storage precheck succeeds whenever the client is open, the cas and
flags bounds hold and the key is valid. -/
theorem client_storage_command_ok (key : Bytes) (flags : Int) (cas : Option Int)
    (reply : Bytes) (hcas : casTooHigh cas = false)
    (hflags : flags ≤ MAX_ALLOWED_FLAG_VALUE) (hkey : is_key_valid key = true) :
    client_storage_command false key flags cas reply = Except.ok reply := by
  simp [client_storage_command, hcas, hkey, not_lt.mpr hflags]

/-- A builder method either raises or appends exactly one serialised command
to the stack it was given. -/
theorem stack_append_cases (stack : List Bytes) (r : Except Err Bytes) :
    (∃ e, stack_append stack r = Except.error e) ∨
    ∃ c, stack_append stack r = Except.ok (stack ++ [c]) := by
  cases r with
  | error e => exact Or.inl ⟨e, rfl⟩
  | ok c => exact Or.inr ⟨c, rfl⟩

/-- C1.  The storage-command bound checks are strict: the boundary values
`flags = 2^16` and `cas = 2^64` pass validation (the source tests
`flags > MAX_ALLOWED_FLAG_VALUE` and `cas > MAX_ALLOWED_CAS_VALUE`), both on
the client façade and on the pipeline builder, while the next values up are
rejected.  This contradicts the claim and the source's own documentation of
`flags` as a 16-bit unsigned integer. -/
theorem storage_bound_values_pass_validation :
    client_storage_command false keyFoo 65536 (some (2 ^ 64)) STORED
      = Except.ok STORED ∧
    client_storage_command false keyFoo 65537 none STORED
      = Except.error (Err.valueError flagsMessage) ∧
    client_storage_command false keyFoo 0 (some (2 ^ 64 + 1)) STORED
      = Except.error (Err.valueError flagsMessage) ∧
    pipeline_storage_command (asciiBytes "set") keyFoo (asciiBytes "bar") 65536 0 false none
      = Except.ok (asciiBytes "set foo 65536 0 3" ++ CRLF ++ asciiBytes "bar" ++ CRLF) := by
  exact ⟨rfl, rfl, rfl, rfl⟩

/-- C2 counterexample.  `set` maps a `NOT_STORED` reply to the generic
`StorageCommandError`, not to the not-stored error the claim requires for
every storage command. -/
theorem set_not_stored_raises_generic_storage_error :
    client_set false keyFoo (asciiBytes "bar") 0 0 false NOT_STORED
      = Except.error Err.storageCommandError ∧
    Err.storageCommandError ≠ Err.notStoredStorageCommandError := by
  constructor
  · rfl
  · intro h
    cases h

/-- C2 amended.  With `noreply` false and the prechecks satisfied: `set` maps
any non-`STORED` reply (including `NOT_STORED` and `EXISTS`) to the generic
storage error; `add`, `replace`, `append` and `prepend` map `NOT_STORED` to
the not-stored error and any other non-`STORED` reply (including `EXISTS`) to
the generic storage error; `cas` maps `EXISTS` to the not-stored error and any
other non-`STORED` reply (including `NOT_STORED`) to the generic storage
error; every command returns unit on `STORED`. -/
theorem storage_reply_classification (key value : Bytes)
    (flags exptime casValue : Int) (reply : Bytes)
    (hkey : is_key_valid key = true) (hflags : flags ≤ MAX_ALLOWED_FLAG_VALUE)
    (hcas : casValue ≤ MAX_ALLOWED_CAS_VALUE) :
    client_set false key value flags exptime false reply
      = (if reply = STORED then Except.ok () else Except.error Err.storageCommandError) ∧
    client_add false key value flags exptime false reply
      = (if reply = NOT_STORED then Except.error Err.notStoredStorageCommandError
         else if reply = STORED then Except.ok ()
         else Except.error Err.storageCommandError) ∧
    client_replace false key value flags exptime false reply
      = (if reply = NOT_STORED then Except.error Err.notStoredStorageCommandError
         else if reply = STORED then Except.ok ()
         else Except.error Err.storageCommandError) ∧
    client_append false key value false reply
      = (if reply = NOT_STORED then Except.error Err.notStoredStorageCommandError
         else if reply = STORED then Except.ok ()
         else Except.error Err.storageCommandError) ∧
    client_prepend false key value false reply
      = (if reply = NOT_STORED then Except.error Err.notStoredStorageCommandError
         else if reply = STORED then Except.ok ()
         else Except.error Err.storageCommandError) ∧
    client_cas false key value casValue flags exptime false reply
      = (if reply = EXISTS then Except.error Err.notStoredStorageCommandError
         else if reply = STORED then Except.ok ()
         else Except.error Err.storageCommandError) := by
  have h0 : (0 : Int) ≤ MAX_ALLOWED_FLAG_VALUE := by decide
  have hset := client_storage_command_ok key flags none reply rfl hflags hkey
  have hset0 := client_storage_command_ok key 0 none reply rfl h0 hkey
  have hsetc := client_storage_command_ok key flags (some casValue) reply
    (casTooHigh_of_le casValue hcas) hflags hkey
  refine ⟨?_, ?_, ?_, ?_, ?_, ?_⟩
  · rw [client_set, hset]
    by_cases h : reply = STORED <;> simp [h]
  · rw [client_add, hset]
    by_cases h : reply = NOT_STORED
    · simp [h]
    · by_cases h2 : reply = STORED <;> simp [h, h2]
  · rw [client_replace, hset]
    by_cases h : reply = NOT_STORED
    · simp [h]
    · by_cases h2 : reply = STORED <;> simp [h, h2]
  · rw [client_append, hset0]
    by_cases h : reply = NOT_STORED
    · simp [h]
    · by_cases h2 : reply = STORED <;> simp [h, h2]
  · rw [client_prepend, hset0]
    by_cases h : reply = NOT_STORED
    · simp [h]
    · by_cases h2 : reply = STORED <;> simp [h, h2]
  · rw [client_cas, hsetc]
    by_cases h : reply = EXISTS
    · simp [h]
    · by_cases h2 : reply = STORED <;> simp [h, h2]

/-- C2 witness: the amended classification evaluated at a concrete input. -/
theorem storage_reply_classification_witness :
    client_set false keyFoo (asciiBytes "bar") 0 0 false STORED
      = (if STORED = STORED then Except.ok () else Except.error Err.storageCommandError) :=
  (storage_reply_classification keyFoo (asciiBytes "bar") 0 0 0 STORED
    (by decide) (by decide) (by decide)).1

/-- C3.  When the parsed consolidated reply carries one terminal record per
queued command (the spec's parser contract), `execute()` on an open client
returns exactly one typed response per command, in submission order: the
response list has the stack's length and its i-th entry decodes the i-th
record. -/
theorem pipeline_execute_one_response_per_command (stack : List Bytes)
    (records : List PipelineRecord) (h : records.length = stack.length) :
    pipeline_execute false stack records
      = Except.ok (records.map decode_pipeline_record, []) ∧
    (records.map decode_pipeline_record).length = stack.length ∧
    ∀ i : Nat, (records.map decode_pipeline_record)[i]?
      = (records[i]?).map decode_pipeline_record := by
  refine ⟨rfl, ?_, ?_⟩
  · rw [List.length_map]
    exact h
  · intro i
    exact List.getElem?_map decode_pipeline_record records i

/-- C3 witness: a two-command pipeline against a two-record reply. -/
theorem pipeline_execute_one_response_per_command_witness :
    pipeline_execute false
      [asciiBytes "version\r\n", asciiBytes "set foo 0 0 3\r\nbar\r\n"]
      [PipelineRecord.stored, PipelineRecord.incrDecrValue 13]
      = Except.ok ([PipelineResponse.text "STORED", PipelineResponse.counter 13], []) :=
  (pipeline_execute_one_response_per_command
    [asciiBytes "version\r\n", asciiBytes "set foo 0 0 3\r\nbar\r\n"]
    [PipelineRecord.stored, PipelineRecord.incrDecrValue 13] (by rfl)).1

/-- C4.  If any per-node sub-request of a many-key retrieval has failed by the
gather rendezvous, the call (at the `_fetch_many_command` /
`_get_and_touch_many_command` level and at each public façade) surfaces the
first such error and returns no partial map, and `cancel()` is requested on
every sibling task still in flight before the error propagates. -/
theorem fanout_first_error_and_cancellation (keys : List Bytes) (exptime : Int)
    (tasks : List (TaskState FetchResult)) (e : Err)
    (hphase : fetch_many_phase false keys = FetchManyPhase.io keys)
    (hfail : first_failure tasks = some e) :
    fetch_many_command false keys tasks = Except.error e ∧
    get_and_touch_many_command false exptime keys tasks = Except.error e ∧
    (∀ rf, client_get_many false keys rf tasks = Except.error e) ∧
    (∀ rf, client_gets_many false keys rf tasks = Except.error e) ∧
    (∀ rf, client_gat_many false exptime keys rf tasks = Except.error e) ∧
    (∀ rf, client_gats_many false exptime keys rf tasks = Except.error e) ∧
    ∀ i : Nat, ∀ hi : i < tasks.length, tasks[i] = TaskState.running →
      ((gather_outcome tasks).cancelRequested)[i]? = some true := by
  have hcmd : fetch_many_command false keys tasks = Except.error e := by
    rw [fetch_many_command, hphase]
    simp [gather_outcome, hfail]
  have hgat : get_and_touch_many_command false exptime keys tasks = Except.error e := by
    rw [get_and_touch_many_command, hphase]
    simp [gather_outcome, hfail]
  refine ⟨hcmd, hgat, ?_, ?_, ?_, ?_, ?_⟩
  · intro rf
    rw [client_get_many, hcmd]
  · intro rf
    rw [client_gets_many, hcmd]
  · intro rf
    rw [client_gat_many, hgat]
  · intro rf
    rw [client_gats_many, hgat]
  · intro i hi hrun
    rw [gather_outcome, hfail]
    simp only [List.getElem?_map]
    rw [List.getElem?_eq_getElem hi, hrun]
    rfl

/-- C4 witness: one failed and one still-running sibling. -/
theorem fanout_first_error_and_cancellation_witness :
    fetch_many_command false [keyFoo]
      [TaskState.failed Err.commandError, TaskState.running]
      = Except.error Err.commandError ∧
    ((gather_outcome ([TaskState.failed Err.commandError,
        TaskState.running] : List (TaskState FetchResult))).cancelRequested)[1]?
      = some true := by
  have h := fanout_first_error_and_cancellation [keyFoo] 0
    [TaskState.failed Err.commandError, TaskState.running] Err.commandError
    (by decide) (by rfl)
  exact ⟨h.1, h.2.2.2.2.2.2 1 (by decide) (by rfl)⟩

/-- C5.  On a closed client, every public operation — retrievals (direct
path), many-key retrievals, storage commands, counters, touch, delete,
flush_all, version, stats, cache_memlimit, verbosity and the pipeline's
execute — fails with the closed-client error for all argument values and all
possible replies, i.e. before any argument validation, routing or I/O. -/
theorem closed_client_rejects_every_operation :
    (∀ key rf r, client_get true key rf r = Except.error Err.clientClosed) ∧
    (∀ key rf r, client_gets true key rf r = Except.error Err.clientClosed) ∧
    (∀ e key rf r, client_gat true e key rf r = Except.error Err.clientClosed) ∧
    (∀ e key rf r, client_gats true e key rf r = Except.error Err.clientClosed) ∧
    (∀ keys rf tasks, client_get_many true keys rf tasks = Except.error Err.clientClosed) ∧
    (∀ keys rf tasks, client_gets_many true keys rf tasks = Except.error Err.clientClosed) ∧
    (∀ e keys rf tasks, client_gat_many true e keys rf tasks = Except.error Err.clientClosed) ∧
    (∀ e keys rf tasks, client_gats_many true e keys rf tasks = Except.error Err.clientClosed) ∧
    (∀ key value flags exptime noreply reply,
      client_set true key value flags exptime noreply reply = Except.error Err.clientClosed) ∧
    (∀ key value flags exptime noreply reply,
      client_add true key value flags exptime noreply reply = Except.error Err.clientClosed) ∧
    (∀ key value flags exptime noreply reply,
      client_replace true key value flags exptime noreply reply = Except.error Err.clientClosed) ∧
    (∀ key value noreply reply,
      client_append true key value noreply reply = Except.error Err.clientClosed) ∧
    (∀ key value noreply reply,
      client_prepend true key value noreply reply = Except.error Err.clientClosed) ∧
    (∀ key value casValue flags exptime noreply reply,
      client_cas true key value casValue flags exptime noreply reply = Except.error Err.clientClosed) ∧
    (∀ key v noreply reply, client_increment true key v noreply reply = Except.error Err.clientClosed) ∧
    (∀ key v noreply reply, client_decrement true key v noreply reply = Except.error Err.clientClosed) ∧
    (∀ key e noreply reply, client_touch true key e noreply reply = Except.error Err.clientClosed) ∧
    (∀ key noreply reply, client_delete true key noreply reply = Except.error Err.clientClosed) ∧
    (∀ d noreply reply, client_flush_all true d noreply reply = Except.error Err.clientClosed) ∧
    (∀ reply, client_version true reply = Except.error Err.clientClosed) ∧
    (∀ reply, client_stats true reply = Except.error Err.clientClosed) ∧
    (∀ v noreply reply, client_cache_memlimit true v noreply reply = Except.error Err.clientClosed) ∧
    (∀ v noreply reply, client_verbosity true v noreply reply = Except.error Err.clientClosed) ∧
    (∀ stack records, pipeline_execute true stack records = Except.error Err.clientClosed) :=
  ⟨fun _ _ _ => rfl, fun _ _ _ => rfl, fun _ _ _ _ => rfl, fun _ _ _ _ => rfl,
   fun _ _ _ => rfl, fun _ _ _ => rfl, fun _ _ _ _ => rfl, fun _ _ _ _ => rfl,
   fun _ _ _ _ _ _ => rfl, fun _ _ _ _ _ _ => rfl, fun _ _ _ _ _ _ => rfl,
   fun _ _ _ _ => rfl, fun _ _ _ _ => rfl, fun _ _ _ _ _ _ _ => rfl,
   fun _ _ _ _ => rfl, fun _ _ _ _ => rfl, fun _ _ _ _ => rfl, fun _ _ _ => rfl,
   fun _ _ _ => rfl, fun _ => rfl, fun _ => rfl, fun _ _ _ => rfl,
   fun _ _ _ => rfl, fun _ _ => rfl⟩

/-- A key of the shape the claim forbids fails the (spec-modelled) validation
predicate. -/
theorem bad_key_invalid (key : Bytes)
    (h : key.length = 0 ∨ 250 < key.length ∨
      ∃ b ∈ key, b = 32 ∨ b = 9 ∨ b = 13 ∨ b = 10 ∨ b < 0x21) :
    is_key_valid key = false := by
  rcases h with h | h | ⟨b, hb, hcase⟩
  · simp [is_key_valid, h]
  · simp [is_key_valid, not_le.mpr h]
  · have hall : key.all
        (fun b => !(b == 32 || b == 9 || b == 13 || b == 10) && !(b < 0x21)) = false := by
      rw [List.all_eq_false]
      refine ⟨b, hb, ?_⟩
      rcases hcase with h1 | h1 | h1 | h1 | h1 <;> simp [h1]
    unfold is_key_valid
    rw [hall, Bool.and_false]

/-- C6.  On an open client, a key that is empty, longer than 250 bytes, or
contains a space, tab, CR, LF or any byte below 0x21 is rejected by every
key-accepting façade operation with the key-validation error, independently of
the reply any connection would give — i.e. before node selection and I/O.  For
the bound-checked commands the other prechecks are assumed to pass, so the
error observed is the key one. -/
theorem invalid_key_rejected_before_io (key : Bytes)
    (hbad : key.length = 0 ∨ 250 < key.length ∨
      ∃ b ∈ key, b = 32 ∨ b = 9 ∨ b = 13 ∨ b = 10 ∨ b < 0x21) :
    (∀ rf r, client_get false key rf r = Except.error (Err.valueError keyMessage)) ∧
    (∀ rf r, client_gets false key rf r = Except.error (Err.valueError keyMessage)) ∧
    (∀ e rf r, client_gat false e key rf r = Except.error (Err.valueError keyMessage)) ∧
    (∀ e rf r, client_gats false e key rf r = Except.error (Err.valueError keyMessage)) ∧
    (∀ ks tasks, key ∈ ks →
      fetch_many_command false ks tasks = Except.error (Err.valueError keyMessage)) ∧
    (∀ e ks tasks, key ∈ ks →
      get_and_touch_many_command false e ks tasks = Except.error (Err.valueError keyMessage)) ∧
    (∀ value flags exptime noreply reply, flags ≤ MAX_ALLOWED_FLAG_VALUE →
      client_set false key value flags exptime noreply reply
        = Except.error (Err.valueError keyMessage)) ∧
    (∀ value flags exptime noreply reply, flags ≤ MAX_ALLOWED_FLAG_VALUE →
      client_add false key value flags exptime noreply reply
        = Except.error (Err.valueError keyMessage)) ∧
    (∀ value flags exptime noreply reply, flags ≤ MAX_ALLOWED_FLAG_VALUE →
      client_replace false key value flags exptime noreply reply
        = Except.error (Err.valueError keyMessage)) ∧
    (∀ value noreply reply,
      client_append false key value noreply reply = Except.error (Err.valueError keyMessage)) ∧
    (∀ value noreply reply,
      client_prepend false key value noreply reply = Except.error (Err.valueError keyMessage)) ∧
    (∀ value casValue flags exptime noreply reply,
      flags ≤ MAX_ALLOWED_FLAG_VALUE → casValue ≤ MAX_ALLOWED_CAS_VALUE →
      client_cas false key value casValue flags exptime noreply reply
        = Except.error (Err.valueError keyMessage)) ∧
    (∀ v noreply reply, 0 ≤ v →
      client_increment false key v noreply reply = Except.error (Err.valueError keyMessage)) ∧
    (∀ v noreply reply, 0 ≤ v →
      client_decrement false key v noreply reply = Except.error (Err.valueError keyMessage)) ∧
    (∀ e noreply reply,
      client_touch false key e noreply reply = Except.error (Err.valueError keyMessage)) ∧
    (∀ noreply reply,
      client_delete false key noreply reply = Except.error (Err.valueError keyMessage)) := by
  have hk : is_key_valid key = false := bad_key_invalid key hbad
  have hsc : ∀ (flags : Int) (cas : Option Int) (reply : Bytes),
      casTooHigh cas = false → flags ≤ MAX_ALLOWED_FLAG_VALUE →
      client_storage_command false key flags cas reply
        = Except.error (Err.valueError keyMessage) := by
    intro flags cas reply hcas hflags
    simp [client_storage_command, hcas, hk, not_lt.mpr hflags]
  have hmany : ∀ (ks : List Bytes), key ∈ ks →
      fetch_many_phase false ks = FetchManyPhase.err (Err.valueError keyMessage) := by
    intro ks hmem
    have hne : ks.isEmpty = false := by
      cases ks with
      | nil => cases hmem
      | cons a t => rfl
    have hall : ks.all is_key_valid = false :=
      List.all_eq_false.mpr ⟨key, hmem, by simp [hk]⟩
    simp [fetch_many_phase, hne, hall]
  refine ⟨?_, ?_, ?_, ?_, ?_, ?_, ?_, ?_, ?_, ?_, ?_, ?_, ?_, ?_, ?_, ?_⟩
  · intro rf r
    simp [client_get, hk]
  · intro rf r
    simp [client_gets, hk]
  · intro e rf r
    simp [client_gat, hk]
  · intro e rf r
    simp [client_gats, hk]
  · intro ks tasks hmem
    rw [fetch_many_command, hmany ks hmem]
  · intro e ks tasks hmem
    rw [get_and_touch_many_command, hmany ks hmem]
  · intro value flags exptime noreply reply hflags
    rw [client_set, hsc flags none reply rfl hflags]
  · intro value flags exptime noreply reply hflags
    rw [client_add, hsc flags none reply rfl hflags]
  · intro value flags exptime noreply reply hflags
    rw [client_replace, hsc flags none reply rfl hflags]
  · intro value noreply reply
    rw [client_append, hsc 0 none reply rfl (by decide)]
  · intro value noreply reply
    rw [client_prepend, hsc 0 none reply rfl (by decide)]
  · intro value casValue flags exptime noreply reply hflags hcas
    rw [client_cas, hsc flags (some casValue) reply (casTooHigh_of_le casValue hcas) hflags]
  · intro v noreply reply hv
    simp [client_increment, client_incr_decr_command, hk, not_lt.mpr hv]
  · intro v noreply reply hv
    simp [client_decrement, client_incr_decr_command, hk, not_lt.mpr hv]
  · intro e noreply reply
    simp [client_touch, hk]
  · intro noreply reply
    simp [client_delete, hk]

/-- C6 witness: a single-space key is rejected by `get` and by `get_many`. -/
theorem invalid_key_rejected_before_io_witness :
    client_get false [32] false ⟨[], [], [], [], none⟩
      = Except.error (Err.valueError keyMessage) ∧
    fetch_many_command false [[32]] []
      = Except.error (Err.valueError keyMessage) := by
  have h := invalid_key_rejected_before_io [32]
    (Or.inr (Or.inr ⟨32, by decide, Or.inl rfl⟩))
  exact ⟨h.1 false ⟨[], [], [], [], none⟩, h.2.2.2.2.1 [[32]] [] (by decide)⟩

/-- C7 counterexample.  A reply that is not an ASCII decimal (here the
`CLIENT_ERROR` line a server sends for a non-numeric value) is not returned
as an integer: `int(result)` raises a `ValueError`.  The claim's "any other
reply is returned as the post-operation integer value" fails here. -/
theorem increment_nonnumeric_reply_raises_value_error :
    client_increment false keyFoo 1 false
      (asciiBytes "CLIENT_ERROR cannot increment or decrement non-numeric value")
      = Except.error (Err.valueError "invalid literal for int") := by
  rfl

/-- C7 amended.  For `increment` and `decrement` on an open client with a
valid key: a negative delta is rejected with the delta `ValueError` for every
reply (before I/O); with `noreply` the result is `None`; otherwise `NOT_FOUND`
raises the not-found error, a reply parsing as an ASCII decimal is returned as
the post-operation integer, and any other reply raises a `ValueError` from
`int(result)`. -/
theorem increment_decrement_semantics (key : Bytes) (v : Int) (reply : Bytes)
    (hkey : is_key_valid key = true) (hv : 0 ≤ v) :
    client_increment false key v true reply = Except.ok none ∧
    client_decrement false key v true reply = Except.ok none ∧
    (reply = NOT_FOUND →
      client_increment false key v false reply = Except.error Err.notFoundCommandError) ∧
    (reply = NOT_FOUND →
      client_decrement false key v false reply = Except.error Err.notFoundCommandError) ∧
    (∀ n, reply ≠ NOT_FOUND → int_of_bytes reply = some n →
      client_increment false key v false reply = Except.ok (some n)) ∧
    (∀ n, reply ≠ NOT_FOUND → int_of_bytes reply = some n →
      client_decrement false key v false reply = Except.ok (some n)) ∧
    (reply ≠ NOT_FOUND → int_of_bytes reply = none →
      client_increment false key v false reply
        = Except.error (Err.valueError "invalid literal for int")) ∧
    (reply ≠ NOT_FOUND → int_of_bytes reply = none →
      client_decrement false key v false reply
        = Except.error (Err.valueError "invalid literal for int")) ∧
    (∀ v2 : Int, v2 < 0 → ∀ noreply reply2,
      client_increment false key v2 noreply reply2
        = Except.error (Err.valueError deltaMessage)) ∧
    (∀ v2 : Int, v2 < 0 → ∀ noreply reply2,
      client_decrement false key v2 noreply reply2
        = Except.error (Err.valueError deltaMessage)) := by
  have hpre : client_incr_decr_command false key v true reply = Except.ok reply := by
    simp [client_incr_decr_command, hkey, not_lt.mpr hv]
  have hpre2 : client_incr_decr_command false key v false reply = Except.ok reply := by
    simp [client_incr_decr_command, hkey, not_lt.mpr hv]
  have hneg : ∀ (v2 : Int), v2 < 0 → ∀ (noreply : Bool) (reply2 : Bytes),
      client_incr_decr_command false key v2 noreply reply2
        = Except.error (Err.valueError deltaMessage) := by
    intro v2 h2 noreply reply2
    simp [client_incr_decr_command, h2]
  refine ⟨?_, ?_, ?_, ?_, ?_, ?_, ?_, ?_, ?_, ?_⟩
  · rw [client_increment, hpre]
    rfl
  · rw [client_decrement, hpre]
    rfl
  · intro h
    rw [client_increment, hpre2]
    simp [h]
  · intro h
    rw [client_decrement, hpre2]
    simp [h]
  · intro n h hp
    rw [client_increment, hpre2]
    simp [h, hp]
  · intro n h hp
    rw [client_decrement, hpre2]
    simp [h, hp]
  · intro h hp
    rw [client_increment, hpre2]
    simp [h, hp]
  · intro h hp
    rw [client_decrement, hpre2]
    simp [h, hp]
  · intro v2 h2 noreply reply2
    rw [client_increment, hneg v2 h2 noreply reply2]
  · intro v2 h2 noreply reply2
    rw [client_decrement, hneg v2 h2 noreply reply2]

/-- C7 witness: a decimal reply is returned as the integer. -/
theorem increment_decrement_semantics_witness :
    client_increment false keyFoo 3 false (asciiBytes "13") = Except.ok (some 13) :=
  (increment_decrement_semantics keyFoo 3 (asciiBytes "13")
    (by decide) (by decide)).2.2.2.2.1 13 (by decide) (by decide)

/-- C8.  On an open client with a valid key and an error-free reply: a hit
returns an item whose `flags` is populated exactly when `return_flags` was
requested and whose `cas` is populated exactly on `gets`/`gats` (never on
`get`/`gat`), independently of `return_flags`; a reply not containing the key
returns `None` for all four retrievals. -/
theorem retrieval_item_population (key : Bytes) (rf : Bool) (r : FetchResult)
    (e : Int) (hkey : is_key_valid key = true) (herr : r.client_error = none) :
    (key ∈ r.keys →
      client_get false key rf r
        = Except.ok (some ⟨r.values.getD 0 [],
            if rf then some (r.flags.getD 0 0) else none, none⟩) ∧
      client_gat false e key rf r
        = Except.ok (some ⟨r.values.getD 0 [],
            if rf then some (r.flags.getD 0 0) else none, none⟩) ∧
      client_gets false key rf r
        = Except.ok (some ⟨r.values.getD 0 [],
            if rf then some (r.flags.getD 0 0) else none, some (r.cas.getD 0 0)⟩) ∧
      client_gats false e key rf r
        = Except.ok (some ⟨r.values.getD 0 [],
            if rf then some (r.flags.getD 0 0) else none, some (r.cas.getD 0 0)⟩)) ∧
    (key ∉ r.keys →
      client_get false key rf r = Except.ok none ∧
      client_gat false e key rf r = Except.ok none ∧
      client_gets false key rf r = Except.ok none ∧
      client_gats false e key rf r = Except.ok none) := by
  constructor
  · intro hmem
    refine ⟨?_, ?_, ?_, ?_⟩ <;>
      · simp only [client_get, client_gat, client_gets, client_gats, hkey, herr]
        cases rf <;> simp [hmem]
  · intro hmem
    refine ⟨?_, ?_, ?_, ?_⟩ <;>
      · simp only [client_get, client_gat, client_gets, client_gats, hkey, herr]
        cases rf <;> simp [hmem]

/-- C8 witness: a hit with `return_flags` on `get` and `gets`, and a miss. -/
theorem retrieval_item_population_witness :
    client_get false keyFoo true ⟨[keyFoo], [asciiBytes "bar"], [7], [99], none⟩
      = Except.ok (some ⟨asciiBytes "bar", if true then some 7 else none, none⟩) ∧
    client_gets false keyFoo false ⟨[keyFoo], [asciiBytes "bar"], [7], [99], none⟩
      = Except.ok (some ⟨asciiBytes "bar", if false then some 7 else none, some 99⟩) ∧
    client_get false keyFoo false ⟨[], [], [], [], none⟩ = Except.ok none := by
  have hhit := (retrieval_item_population keyFoo true
    ⟨[keyFoo], [asciiBytes "bar"], [7], [99], none⟩ 0 (by decide) rfl).1 (by decide)
  have hhit2 := (retrieval_item_population keyFoo false
    ⟨[keyFoo], [asciiBytes "bar"], [7], [99], none⟩ 0 (by decide) rfl).1 (by decide)
  have hmiss := (retrieval_item_population keyFoo false
    ⟨[], [], [], [], none⟩ 0 (by decide) rfl).2 (by decide)
  exact ⟨hhit.1, hhit2.2.2.1, hmiss.1⟩

/-- C9.  On an open client, every many-key retrieval called with an empty key
sequence returns the empty map at once: the result holds for every possible
set of per-node task states (so no node is contacted and no key validation
runs — the phase function short-circuits at `emptyResult`, before the
validation loop and `pick_nodes`). -/
theorem empty_keys_short_circuit :
    (∀ rf tasks, client_get_many false [] rf tasks = Except.ok []) ∧
    (∀ rf tasks, client_gets_many false [] rf tasks = Except.ok []) ∧
    (∀ e rf tasks, client_gat_many false e [] rf tasks = Except.ok []) ∧
    (∀ e rf tasks, client_gats_many false e [] rf tasks = Except.ok []) ∧
    (∀ tasks, fetch_many_command false [] tasks = Except.ok []) ∧
    (∀ e tasks, get_and_touch_many_command false e [] tasks = Except.ok []) ∧
    fetch_many_phase false [] = FetchManyPhase.emptyResult :=
  ⟨fun _ _ => rfl, fun _ _ => rfl, fun _ _ _ => rfl, fun _ _ _ => rfl,
   fun _ => rfl, fun _ _ => rfl, rfl⟩

/-- C10.  The pipeline's command stack is reset by a successful `execute()`
and by `__aexit__`, and every builder method either raises at serialisation
time or appends exactly one pre-serialised command to the stack (returning the
same pipeline, modelled as the updated stack). -/
theorem pipeline_stack_discipline :
    (∀ stack records, pipeline_execute false stack records
      = Except.ok (records.map decode_pipeline_record, [])) ∧
    (∀ stack, pipeline_aexit stack = []) ∧
    (∀ stack key, (∃ e, pipeline_get stack key = Except.error e) ∨
      ∃ c, pipeline_get stack key = Except.ok (stack ++ [c])) ∧
    (∀ stack key, (∃ e, pipeline_gets stack key = Except.error e) ∨
      ∃ c, pipeline_gets stack key = Except.ok (stack ++ [c])) ∧
    (∀ stack keys, (∃ e, pipeline_get_many stack keys = Except.error e) ∨
      ∃ c, pipeline_get_many stack keys = Except.ok (stack ++ [c])) ∧
    (∀ stack keys, (∃ e, pipeline_gets_many stack keys = Except.error e) ∨
      ∃ c, pipeline_gets_many stack keys = Except.ok (stack ++ [c])) ∧
    (∀ stack key value flags exptime noreply,
      (∃ e, pipeline_set stack key value flags exptime noreply = Except.error e) ∨
      ∃ c, pipeline_set stack key value flags exptime noreply = Except.ok (stack ++ [c])) ∧
    (∀ stack key value flags exptime noreply,
      (∃ e, pipeline_add stack key value flags exptime noreply = Except.error e) ∨
      ∃ c, pipeline_add stack key value flags exptime noreply = Except.ok (stack ++ [c])) ∧
    (∀ stack key value flags exptime noreply,
      (∃ e, pipeline_replace stack key value flags exptime noreply = Except.error e) ∨
      ∃ c, pipeline_replace stack key value flags exptime noreply = Except.ok (stack ++ [c])) ∧
    (∀ stack key value noreply,
      (∃ e, pipeline_append stack key value noreply = Except.error e) ∨
      ∃ c, pipeline_append stack key value noreply = Except.ok (stack ++ [c])) ∧
    (∀ stack key value noreply,
      (∃ e, pipeline_prepend stack key value noreply = Except.error e) ∨
      ∃ c, pipeline_prepend stack key value noreply = Except.ok (stack ++ [c])) ∧
    (∀ stack key value casValue flags exptime noreply,
      (∃ e, pipeline_cas stack key value casValue flags exptime noreply = Except.error e) ∨
      ∃ c, pipeline_cas stack key value casValue flags exptime noreply = Except.ok (stack ++ [c])) ∧
    (∀ stack key value noreply,
      (∃ e, pipeline_increment stack key value noreply = Except.error e) ∨
      ∃ c, pipeline_increment stack key value noreply = Except.ok (stack ++ [c])) ∧
    (∀ stack key value noreply,
      (∃ e, pipeline_decrement stack key value noreply = Except.error e) ∨
      ∃ c, pipeline_decrement stack key value noreply = Except.ok (stack ++ [c])) ∧
    (∀ stack key exptime noreply,
      (∃ e, pipeline_touch stack key exptime noreply = Except.error e) ∨
      ∃ c, pipeline_touch stack key exptime noreply = Except.ok (stack ++ [c])) ∧
    (∀ stack key noreply,
      (∃ e, pipeline_delete stack key noreply = Except.error e) ∨
      ∃ c, pipeline_delete stack key noreply = Except.ok (stack ++ [c])) ∧
    (∀ stack delay noreply,
      (∃ e, pipeline_flush_all stack delay noreply = Except.error e) ∨
      ∃ c, pipeline_flush_all stack delay noreply = Except.ok (stack ++ [c])) ∧
    (∀ stack, (∃ e, pipeline_version stack = Except.error e) ∨
      ∃ c, pipeline_version stack = Except.ok (stack ++ [c])) ∧
    (∀ stack exptime key,
      (∃ e, pipeline_gat stack exptime key = Except.error e) ∨
      ∃ c, pipeline_gat stack exptime key = Except.ok (stack ++ [c])) ∧
    (∀ stack exptime key,
      (∃ e, pipeline_gats stack exptime key = Except.error e) ∨
      ∃ c, pipeline_gats stack exptime key = Except.ok (stack ++ [c])) ∧
    (∀ stack exptime keys,
      (∃ e, pipeline_gat_many stack exptime keys = Except.error e) ∨
      ∃ c, pipeline_gat_many stack exptime keys = Except.ok (stack ++ [c])) ∧
    (∀ stack exptime keys,
      (∃ e, pipeline_gats_many stack exptime keys = Except.error e) ∨
      ∃ c, pipeline_gats_many stack exptime keys = Except.ok (stack ++ [c])) ∧
    (∀ stack value noreply,
      (∃ e, pipeline_cache_memlimit stack value noreply = Except.error e) ∨
      ∃ c, pipeline_cache_memlimit stack value noreply = Except.ok (stack ++ [c])) ∧
    (∀ stack args, (∃ e, pipeline_stats stack args = Except.error e) ∨
      ∃ c, pipeline_stats stack args = Except.ok (stack ++ [c])) ∧
    (∀ stack level noreply,
      (∃ e, pipeline_verbosity stack level noreply = Except.error e) ∨
      ∃ c, pipeline_verbosity stack level noreply = Except.ok (stack ++ [c])) :=
  ⟨fun _ _ => rfl, fun _ => rfl,
   fun stack key => stack_append_cases stack _,
   fun stack key => stack_append_cases stack _,
   fun stack keys => stack_append_cases stack _,
   fun stack keys => stack_append_cases stack _,
   fun stack _ _ _ _ _ => stack_append_cases stack _,
   fun stack _ _ _ _ _ => stack_append_cases stack _,
   fun stack _ _ _ _ _ => stack_append_cases stack _,
   fun stack _ _ _ => stack_append_cases stack _,
   fun stack _ _ _ => stack_append_cases stack _,
   fun stack _ _ _ _ _ _ => stack_append_cases stack _,
   fun stack _ _ _ => stack_append_cases stack _,
   fun stack _ _ _ => stack_append_cases stack _,
   fun stack _ _ _ => stack_append_cases stack _,
   fun stack _ _ => stack_append_cases stack _,
   fun stack _ _ => stack_append_cases stack _,
   fun stack => stack_append_cases stack _,
   fun stack _ _ => stack_append_cases stack _,
   fun stack _ _ => stack_append_cases stack _,
   fun stack _ _ => stack_append_cases stack _,
   fun stack _ _ => stack_append_cases stack _,
   fun stack _ _ => stack_append_cases stack _,
   fun stack _ => stack_append_cases stack _,
   fun stack _ _ => stack_append_cases stack _⟩

end Emcache
